import Mathlib

/-!
Verification of the `cloudflare-ddns-renewal` reconciliation tool against its
specification.  The Go program (`main.go`) is shallowly embedded below:

* pure string helpers (`strings.Split`, `strings.TrimSpace`,
  `strings.NewReplacer(...).Replace`) are translated as structural functions
  over `List Char`;
* the process environment is an association list of key/value pairs, with the
  Go convention that an unset variable reads as the empty string;
* the Cloudflare API (`ZoneIDByName`, `ListDNSRecords`, `UpdateDNSRecord`) is
  an oracle of functions returning `Except String _`;
* observable effects (record listings, record updates, Telegram notifications,
  driver error logs) are collected in an event trace;
* `log.Fatalf` (process abort) is modelled as an `Except.error` result of the
  function that triggers it.
-/

namespace DDNS

/-! ### String helpers (translations of the Go standard-library calls used) -/

/-- Translation of Go `strings.Split(s, sep)` for a one-character separator,
working on the character list of the string. -/
def splitChar (sep : Char) : List Char → List (List Char)
  | [] => [[]]
  | c :: cs =>
    let r := splitChar sep cs
    if c == sep then
      [] :: r
    else
      match r with
      | [] => [[c]]
      | h :: t => (c :: h) :: t

/-- The whitespace characters relevant to `strings.TrimSpace` on the ASCII
inputs this program handles. -/
def isSpaceChar (c : Char) : Bool :=
  c == ' ' || c == '\t' || c == '\x0a' || c == '\x0d'

/-- Drop leading whitespace characters. -/
def dropLeading : List Char → List Char
  | [] => []
  | c :: cs => if isSpaceChar c then dropLeading cs else c :: cs

/-- Translation of Go `strings.TrimSpace`: drop leading and trailing
whitespace. -/
def trimSpace (l : List Char) : List Char :=
  (dropLeading (dropLeading l).reverse).reverse

/-- Translation of
`strings.NewReplacer("\n", ",", " ", ",", ";", ",", "|", ",").Replace`:
every newline, space, semicolon and pipe character becomes a comma. -/
def replaceSeparators (s : String) : String :=
  String.mk (s.data.map fun c =>
    if c == '\x0a' then ',' else
    if c == ' ' then ',' else
    if c == ';' then ',' else
    if c == '|' then ',' else c)

/-! ### Environment access -/

/-- The process environment: a key/value association list. -/
def Env : Type := List (String × String)

/-- Translation of Go `os.Getenv`: an absent variable reads as `""`. -/
def osGetenv (env : Env) (key : String) : String :=
  (List.lookup key env).getD ""

/-- Translation of `getEnv` (main.go): fetch a required environment variable;
`log.Fatalf("Environment variable %q not set", key)` — the process abort — is
modelled as an `Except.error` carrying the fatal message. -/
def getEnv (env : Env) (key : String) : Except String String :=
  let val := osGetenv env key
  if val = "" then
    .error ("Environment variable \"" ++ key ++ "\" not set")
  else
    .ok val

/-! ### Domain-list resolution (`parseDomains`, main.go) -/

/-- Translation of `parseDomains` (main.go): `DOMAINS` is a comma/space/
semicolon/pipe/newline separated list; falls back to `DOMAIN`, then to the
legacy default `"plosca.ru"`; an all-separator list also falls back. -/
def parseDomains (env : Env) : List String :=
  let domainsVar := osGetenv env "DOMAINS"
  if domainsVar = "" then
    let single := osGetenv env "DOMAIN"
    if single = "" then
      ["plosca.ru"]
    else
      [String.mk (trimSpace single.data)]
  else
    let cleaned := replaceSeparators domainsVar
    let parts := (splitChar ',' cleaned.data).map String.mk
    let domains := (parts.map fun p => String.mk (trimSpace p.data)).filter
      fun d => d ≠ ""
    if domains = [] then ["plosca.ru"] else domains

/-- The list-pipeline described by the specification, stated separately so the
code's behaviour can be compared against it: normalize the delimiters
newline/space/semicolon/pipe to comma, split on comma, trim whitespace from
each piece, discard empty pieces. -/
def specSplitDomains (s : String) : List String :=
  ((((splitChar ',' (replaceSeparators s).data).map String.mk).map
      fun p => String.mk (trimSpace p.data)).filter fun d => d ≠ "")

/-! ### HTTP-shaped data, IP discovery and the notification sender -/

/-- The observable shape of an HTTP response as this program consumes one: a
status code and the outcome of reading the body. -/
structure HttpResponse where
  statusCode : Nat
  bodyRead : Except String String
deriving Repr

/-- Translation of stage 1 of `main` (main.go): GET the IP-echo endpoint,
abort fatally (`log.Fatalf`, modelled as `.error`) if the request errors or
the body cannot be read, otherwise adopt the whitespace-trimmed body as the
current IP.  The status code of the response is never consulted. -/
def discoverIP (getResp : Except String HttpResponse) : Except String String :=
  match getResp with
  | .error e => .error ("Failed to get current IP: " ++ e)
  | .ok resp =>
    match resp.bodyRead with
    | .error e => .error ("Failed to read IP response: " ++ e)
    | .ok body => .ok (String.mk (trimSpace body.data))

/-- Translation of `sendTelegramMessage` (main.go).  `postForm` is the outcome
of `http.PostForm` on the Telegram endpoint.  A missing credential makes
`getEnv` abort the process (`.error`); otherwise the function always returns
normally (`.ok`) carrying the list of log lines it printed: a transport error
is logged and ignored, and the response — its status code included — is never
inspected. -/
def sendTelegramMessage (env : Env) (postForm : Except String HttpResponse)
    (message : String) : Except String (List String) :=
  match getEnv env "TELEGRAM_BOT_TOKEN" with
  | .error e => .error e
  | .ok _ =>
    match getEnv env "TELEGRAM_CHAT_ID" with
    | .error e => .error e
    | .ok _ =>
      match postForm with
      | .error e => .ok ["Error sending telegram message: " ++ e]
      | .ok _ => .ok []

/-! ### DNS data model and the Cloudflare API oracle -/

/-- The fields of `cloudflare.DNSRecord` this program reads. -/
structure DNSRecord where
  id : String
  rtype : String
  name : String
  content : String
  ttl : Int
  proxied : Option Bool
deriving DecidableEq, Repr

/-- The fields of `cloudflare.UpdateDNSRecordParams` this program sets. -/
structure UpdateDNSRecordParams where
  id : String
  rtype : String
  name : String
  content : String
  ttl : Int
  proxied : Option Bool
deriving DecidableEq, Repr

/-- Observable effects of a run: a record listing (zone, type, name), a record
update call (zone, params), a Telegram notification (`sendTelegramMessage`
invocation), and a driver error log line. -/
inductive Event where
  | listCall (zoneID rtype name : String)
  | updateCall (zoneID : String) (p : UpdateDNSRecordParams)
  | notify (message : String)
  | logError (message : String)
deriving DecidableEq, Repr

/-- `true` exactly on record-update events. -/
def Event.isUpdateCall : Event → Bool
  | .updateCall _ _ => true
  | _ => false

/-- `true` exactly on notification events. -/
def Event.isNotify : Event → Bool
  | .notify _ => true
  | _ => false

/-- `true` on record-update events whose `Name` parameter is `n`. -/
def Event.isUpdateFor (n : String) : Event → Bool
  | .updateCall _ p => p.name == n
  | _ => false

/-- `true` on record-listing events whose `Name` parameter is `n`. -/
def Event.isListFor (n : String) : Event → Bool
  | .listCall _ _ name => name == n
  | _ => false

/-- `true` on notification events whose message contains both `apex` and `ip`
as substrings. -/
def Event.notifyMentions (apex ip : String) : Event → Bool
  | .notify m => decide (apex.data <:+: m.data) && decide (ip.data <:+: m.data)
  | _ => false

/-- The provider API as the program consumes it: resolve a zone ID from a
domain name; list DNS records of a zone filtered by type and name; update a
record of a zone (the returned record is discarded by the program, so the
success value is `Unit`). -/
structure CFApi where
  zoneIDByName : String → Except String String
  listDNSRecords : String → String → String → Except String (List DNSRecord)
  updateDNSRecord : String → UpdateDNSRecordParams → Except String Unit

/-! ### Per-domain reconciliation (`updateDomain`, main.go) -/

/-- Translation of `updateDomain` (main.go), returning the Go function's
`error` result together with the trace of provider calls and notifications it
issued.  The control flow mirrors the source: zone lookup, root listing,
wildcard listing, the two nil-checks, then the root update step followed — only
if the root step did not return early — by the wildcard update step. -/
def updateDomain (api : CFApi) (currentIP domain : String) :
    Except String Unit × List Event :=
  match api.zoneIDByName domain with
  | .error e => (.error ("failed to get zone ID for " ++ domain ++ ": " ++ e), [])
  | .ok zoneID =>
    let rootName := domain
    let wildcardName := "*." ++ domain
    match api.listDNSRecords zoneID "A" rootName with
    | .error e =>
      (.error ("error listing root record for " ++ domain ++ ": " ++ e),
        [.listCall zoneID "A" rootName])
    | .ok rootRecords =>
      match api.listDNSRecords zoneID "A" wildcardName with
      | .error e =>
        (.error ("error listing wildcard record for " ++ domain ++ ": " ++ e),
          [.listCall zoneID "A" rootName, .listCall zoneID "A" wildcardName])
      | .ok wildcardRecords =>
        match rootRecords.head? with
        | none =>
          (.error ("A record for " ++ rootName ++ " not found"),
            [.listCall zoneID "A" rootName, .listCall zoneID "A" wildcardName])
        | some rootRec =>
          match wildcardRecords.head? with
          | none =>
            (.error ("A record for " ++ wildcardName ++ " not found"),
              [.listCall zoneID "A" rootName, .listCall zoneID "A" wildcardName])
          | some wildcardRec =>
            let t0 : List Event :=
              [.listCall zoneID "A" rootName, .listCall zoneID "A" wildcardName]
            let rootStep : Except String Unit × List Event :=
              if rootRec.content = currentIP then
                (.ok (), t0)
              else
                let p : UpdateDNSRecordParams :=
                  ⟨rootRec.id, "A", rootName, currentIP, rootRec.ttl, rootRec.proxied⟩
                match api.updateDNSRecord zoneID p with
                | .error e =>
                  (.error ("failed updating " ++ rootName ++ ": " ++ e),
                    t0 ++ [.updateCall zoneID p])
                | .ok _ =>
                  (.ok (), t0 ++ [.updateCall zoneID p,
                    .notify ("IP for " ++ rootName ++ " updated to " ++ currentIP)])
            match rootStep with
            | (.error e, t) => (.error e, t)
            | (.ok _, t) =>
              if wildcardRec.content = currentIP then
                (.ok (), t)
              else
                let p : UpdateDNSRecordParams :=
                  ⟨wildcardRec.id, "A", wildcardName, currentIP,
                    wildcardRec.ttl, wildcardRec.proxied⟩
                match api.updateDNSRecord zoneID p with
                | .error e =>
                  (.error ("failed updating " ++ wildcardName ++ ": " ++ e),
                    t ++ [.updateCall zoneID p])
                | .ok _ =>
                  (.ok (), t ++ [.updateCall zoneID p,
                    .notify ("IP for " ++ wildcardName ++ " updated to " ++ currentIP)])

/-! ### Top-level driver (the per-domain loop of `main`, main.go) -/

/-- `true` exactly on `Except.error`. -/
def isErr : Except String Unit → Bool
  | .error _ => true
  | .ok _ => false

/-- Translation of the per-domain loop of `main` (main.go): each domain is
reconciled in order; on failure the driver logs `Error updating <d>: <e>`,
sends a Telegram notification with the same text, records the failure, and
continues with the remaining domains. -/
def runDomains (api : CFApi) (ip : String) : List String → Bool × List Event
  | [] => (false, [])
  | d :: ds =>
    let r := updateDomain api ip d
    let rest := runDomains api ip ds
    match r.1 with
    | .ok _ => (rest.1, r.2 ++ rest.2)
    | .error e =>
      (true,
        r.2 ++ [.logError ("Error updating " ++ d ++ ": " ++ e),
                .notify ("Error updating " ++ d ++ ": " ++ e)] ++ rest.2)

/-- Translation of the tail of `main` (main.go): `log.Fatal` terminates with
exit status 1 when any domain failed, otherwise the process exits 0. -/
def mainExitCode (api : CFApi) (ip : String) (domains : List String) : Nat :=
  if (runDomains api ip domains).1 then 1 else 0

/-- The events the driver appends for one domain: the domain's own
reconciliation trace, followed — when that domain failed — by the error log
line and the failure notification. -/
def domainSegment (api : CFApi) (ip d : String) : List Event :=
  match updateDomain api ip d with
  | (.ok _, es) => es
  | (.error e, es) =>
    es ++ [.logError ("Error updating " ++ d ++ ": " ++ e),
           .notify ("Error updating " ++ d ++ ": " ++ e)]

/-! ### A concrete provider state, for idempotence -/

/-- A concrete provider: zones as a domain-to-zone-ID table, and the records
of each zone (keyed by zone ID).  Updates always succeed and rewrite the
matching record. -/
structure World where
  zones : List (String × String)
  records : List (String × DNSRecord)

/-- The API oracle a `World` presents: zone lookup by table, listing by
zone/type/name filter, updates succeeding unconditionally. -/
def World.api (w : World) : CFApi where
  zoneIDByName := fun d =>
    match List.lookup d w.zones with
    | some z => .ok z
    | none => .error ("zone could not be found for " ++ d)
  listDNSRecords := fun z t n =>
    .ok (((w.records.filter fun q => q.1 == z).map Prod.snd).filter
      fun r => r.rtype == t && r.name == n)
  updateDNSRecord := fun _ _ => .ok ()

/-- The effect of one traced event on the provider state: an update call
rewrites the record of that zone with the matching ID; everything else leaves
the state unchanged. -/
def World.applyEvent (w : World) : Event → World
  | .updateCall z p =>
    { w with
      records := w.records.map fun q =>
        if q.1 == z && q.2.id == p.id then
          (q.1, ⟨p.id, p.rtype, p.name, p.content, p.ttl, p.proxied⟩)
        else q }
  | _ => w

/-- The effect of a whole trace on the provider state. -/
def World.applyEvents (w : World) (es : List Event) : World :=
  es.foldl World.applyEvent w

/-! ### Concrete fixtures used by witnesses and counterexamples -/

/-- A provider where the zone resolves but the apex listing for `ex.com`
returns zero records while the wildcard listing returns one record. -/
def apiMissingApex : CFApi where
  zoneIDByName := fun _ => .ok "z1"
  listDNSRecords := fun _ _ n =>
    if n = "ex.com" then .ok []
    else .ok [⟨"r2", "A", "*.ex.com", "1.1.1.1", 120, some false⟩]
  updateDNSRecord := fun _ _ => .ok ()

/-- A provider where both the apex and the wildcard record of `ex.com` hold a
stale IP and updates succeed. -/
def apiBothStale : CFApi where
  zoneIDByName := fun _ => .ok "z1"
  listDNSRecords := fun _ _ n =>
    if n = "ex.com" then .ok [⟨"r1", "A", "ex.com", "1.1.1.1", 300, some true⟩]
    else .ok [⟨"r2", "A", "*.ex.com", "1.1.1.1", 120, some false⟩]
  updateDNSRecord := fun _ _ => .ok ()

/-- A provider where both records of `ex.com` are stale and the update of the
apex record (ID `r1`) fails. -/
def apiRootUpdateFails : CFApi where
  zoneIDByName := fun _ => .ok "z1"
  listDNSRecords := fun _ _ n =>
    if n = "ex.com" then .ok [⟨"r1", "A", "ex.com", "1.1.1.1", 300, some true⟩]
    else .ok [⟨"r2", "A", "*.ex.com", "3.3.3.3", 120, some false⟩]
  updateDNSRecord := fun _ p => if p.id = "r1" then .error "boom" else .ok ()

/-- A concrete provider state where both records of `ex.com` already hold the
current IP `9.9.9.9`. -/
def wBoth : World where
  zones := [("ex.com", "z1")]
  records :=
    [("z1", ⟨"r1", "A", "ex.com", "9.9.9.9", 300, some true⟩),
     ("z1", ⟨"r2", "A", "*.ex.com", "9.9.9.9", 120, some false⟩)]

/-! ### Helper lemmas -/

theorem strData_append (s t : String) : (s ++ t).data = s.data ++ t.data := rfl

theorem mid_infix_append (pre mid post : String) :
    mid.data <:+: (pre ++ mid ++ post).data :=
  ⟨pre.data, post.data, by simp [strData_append]⟩

theorem mid_infix_append4 (pre mid p1 p2 : String) :
    mid.data <:+: (pre ++ mid ++ p1 ++ p2).data :=
  ⟨pre.data, p1.data ++ p2.data, by simp [strData_append]⟩

theorem wildcard_ne (d : String) : "*." ++ d ≠ d := by
  intro h
  have hlen := congrArg String.length h
  rw [String.length_append] at hlen
  have h2 : "*.".length = 2 := rfl
  omega

theorem parseDomains_eq_pipeline (env : Env) (h : osGetenv env "DOMAINS" ≠ "") :
    parseDomains env =
      if specSplitDomains (osGetenv env "DOMAINS") = [] then ["plosca.ru"]
      else specSplitDomains (osGetenv env "DOMAINS") := by
  simp only [parseDomains, specSplitDomains]
  rw [if_neg h]

/-! ### Claim theorems -/

/-- C4 (counterexample): the input `" ,;|\x0a"` for `DOMAINS` is non-empty and
mixes the five delimiters, the spec's normalize/split/trim/discard pipeline
yields the empty list on it, yet domain-list resolution returns
`["plosca.ru"]` — not that pipeline's result. -/
theorem c4_counterexample :
    osGetenv [("DOMAINS", " ,;|\x0a")] "DOMAINS" = " ,;|\x0a" ∧
    (" ,;|\x0a" : String) ≠ "" ∧
    specSplitDomains " ,;|\x0a" = [] ∧
    parseDomains [("DOMAINS", " ,;|\x0a")] = ["plosca.ru"] ∧
    parseDomains [("DOMAINS", " ,;|\x0a")] ≠ specSplitDomains " ,;|\x0a" :=
  ⟨rfl, by decide, by decide, by decide, by decide⟩

/-- C4 (amended): for every environment whose list-form setting `DOMAINS` is
non-empty, domain-list resolution returns the normalize/split/trim/discard
pipeline's result when that result is non-empty, and the hardcoded default
`["plosca.ru"]` when the pipeline leaves zero entries. -/
theorem c4_pipeline (env : Env) (h : osGetenv env "DOMAINS" ≠ "") :
    parseDomains env =
      if specSplitDomains (osGetenv env "DOMAINS") = [] then ["plosca.ru"]
      else specSplitDomains (osGetenv env "DOMAINS") :=
  parseDomains_eq_pipeline env h

/-- C4 (witness): the amended theorem applied to `DOMAINS = "a b"`. -/
theorem c4_pipeline_witness :
    osGetenv [("DOMAINS", "a b")] "DOMAINS" ≠ "" ∧
    parseDomains [("DOMAINS", "a b")] =
      if specSplitDomains (osGetenv [("DOMAINS", "a b")] "DOMAINS") = [] then ["plosca.ru"]
      else specSplitDomains (osGetenv [("DOMAINS", "a b")] "DOMAINS") :=
  ⟨by decide, c4_pipeline [("DOMAINS", "a b")] (by decide)⟩

/-- C5: domain-list resolution yields exactly `["plosca.ru"]` both when
neither `DOMAINS` nor `DOMAIN` is set (reads as empty) and when `DOMAINS` is
set but the trim/discard filtering leaves zero entries. -/
theorem c5_default_fallback (env : Env) :
    (osGetenv env "DOMAINS" = "" → osGetenv env "DOMAIN" = "" →
      parseDomains env = ["plosca.ru"]) ∧
    (osGetenv env "DOMAINS" ≠ "" → specSplitDomains (osGetenv env "DOMAINS") = [] →
      parseDomains env = ["plosca.ru"]) := by
  constructor
  · intro h1 h2
    simp [parseDomains, h1, h2]
  · intro h1 h2
    rw [parseDomains_eq_pipeline env h1, if_pos h2]

/-- C5 (witness): the two branches applied to the empty environment and to
`DOMAINS = ","` (which filters to zero entries). -/
theorem c5_default_fallback_witness :
    parseDomains [] = ["plosca.ru"] ∧
    (osGetenv [("DOMAINS", ",")] "DOMAINS" ≠ "" ∧
      specSplitDomains (osGetenv [("DOMAINS", ",")] "DOMAINS") = [] ∧
      parseDomains [("DOMAINS", ",")] = ["plosca.ru"]) :=
  ⟨(c5_default_fallback []).1 rfl rfl,
   by decide, by decide,
   (c5_default_fallback [("DOMAINS", ",")]).2 (by decide) (by decide)⟩

/-- C10: IP discovery never inspects the status code of the IP-echo response.
Whenever a response arrives and its body reads successfully — whatever the
status code — the trimmed body is adopted as the current IP; the run aborts
fatally exactly when the request errors or the body read fails. -/
theorem c10_status_ignored :
    (∀ (status : Nat) (body : String),
      discoverIP (.ok ⟨status, .ok body⟩) = .ok (String.mk (trimSpace body.data))) ∧
    (∀ e, discoverIP (.error e) = .error ("Failed to get current IP: " ++ e)) ∧
    (∀ (status : Nat) (e : String),
      discoverIP (.ok ⟨status, .error e⟩) = .error ("Failed to read IP response: " ++ e)) :=
  ⟨fun _ _ => rfl, fun _ => rfl, fun _ _ => rfl⟩

/-- C9: when a notification send is invoked with the bot token unset, or with
the token set but the chat identifier unset, the send aborts the whole process
fatally with a message naming the missing key (the key name occurs in the
fatal message). -/
theorem c9_missing_telegram_env (env : Env) (post : Except String HttpResponse)
    (msg : String) :
    (osGetenv env "TELEGRAM_BOT_TOKEN" = "" →
      sendTelegramMessage env post msg =
        .error ("Environment variable \"TELEGRAM_BOT_TOKEN\" not set") ∧
      ("TELEGRAM_BOT_TOKEN" : String).data <:+:
        ("Environment variable \"TELEGRAM_BOT_TOKEN\" not set" : String).data) ∧
    (osGetenv env "TELEGRAM_BOT_TOKEN" ≠ "" → osGetenv env "TELEGRAM_CHAT_ID" = "" →
      sendTelegramMessage env post msg =
        .error ("Environment variable \"TELEGRAM_CHAT_ID\" not set") ∧
      ("TELEGRAM_CHAT_ID" : String).data <:+:
        ("Environment variable \"TELEGRAM_CHAT_ID\" not set" : String).data) := by
  constructor
  · intro h1
    refine ⟨?_, by decide⟩
    simp [sendTelegramMessage, getEnv, h1]
  · intro h1 h2
    refine ⟨?_, by decide⟩
    simp [sendTelegramMessage, getEnv, h1, h2]

/-- C9 (witness): the two branches applied to the empty environment and to an
environment holding only the bot token. -/
theorem c9_missing_telegram_env_witness :
    (osGetenv [] "TELEGRAM_BOT_TOKEN" = "" ∧
      sendTelegramMessage [] (.ok ⟨200, .ok ""⟩) "m" =
        .error ("Environment variable \"TELEGRAM_BOT_TOKEN\" not set")) ∧
    (osGetenv [("TELEGRAM_BOT_TOKEN", "t")] "TELEGRAM_BOT_TOKEN" ≠ "" ∧
      osGetenv [("TELEGRAM_BOT_TOKEN", "t")] "TELEGRAM_CHAT_ID" = "" ∧
      sendTelegramMessage [("TELEGRAM_BOT_TOKEN", "t")] (.ok ⟨200, .ok ""⟩) "m" =
        .error ("Environment variable \"TELEGRAM_CHAT_ID\" not set")) :=
  ⟨⟨rfl, ((c9_missing_telegram_env [] (.ok ⟨200, .ok ""⟩) "m").1 rfl).1⟩,
   ⟨by decide, rfl,
    ((c9_missing_telegram_env [("TELEGRAM_BOT_TOKEN", "t")] (.ok ⟨200, .ok ""⟩) "m").2
      (by decide) rfl).1⟩⟩

/-- C8 (counterexample): with the Telegram credentials configured, a POST that
returns HTTP status 500 — a non-success status — produces zero log lines: the
non-success status is not logged, contradicting the claim that it "is logged
and otherwise ignored". -/
theorem c8_counterexample :
    sendTelegramMessage [("TELEGRAM_BOT_TOKEN", "t"), ("TELEGRAM_CHAT_ID", "c")]
      (.ok ⟨500, .ok ""⟩) "m" = .ok [] := rfl

/-- C8 (amended): with the Telegram credentials configured, the notification
send always returns normally — it never fails the run or the calling
reconciliation step; a transport error is logged and otherwise ignored, and a
received response is ignored entirely (its status code is never inspected and
nothing is logged, success or not). -/
theorem c8_fire_and_forget (env : Env) (post : Except String HttpResponse)
    (msg : String)
    (h1 : osGetenv env "TELEGRAM_BOT_TOKEN" ≠ "")
    (h2 : osGetenv env "TELEGRAM_CHAT_ID" ≠ "") :
    (∃ logs, sendTelegramMessage env post msg = .ok logs) ∧
    (∀ e, post = .error e →
      sendTelegramMessage env post msg = .ok ["Error sending telegram message: " ++ e]) ∧
    (∀ resp, post = .ok resp → sendTelegramMessage env post msg = .ok []) := by
  simp only [sendTelegramMessage, getEnv]
  rw [if_neg h1, if_neg h2]
  refine ⟨?_, ?_, ?_⟩
  · cases post with
    | error e => exact ⟨["Error sending telegram message: " ++ e], rfl⟩
    | ok resp => exact ⟨[], rfl⟩
  · intro e he
    rw [he]
  · intro resp hr
    rw [hr]

/-- C8 (witness): the amended theorem applied to a configured environment,
once with a transport error and once with a status-500 response. -/
theorem c8_fire_and_forget_witness :
    osGetenv [("TELEGRAM_BOT_TOKEN", "t"), ("TELEGRAM_CHAT_ID", "c")]
      "TELEGRAM_BOT_TOKEN" ≠ "" ∧
    osGetenv [("TELEGRAM_BOT_TOKEN", "t"), ("TELEGRAM_CHAT_ID", "c")]
      "TELEGRAM_CHAT_ID" ≠ "" ∧
    sendTelegramMessage [("TELEGRAM_BOT_TOKEN", "t"), ("TELEGRAM_CHAT_ID", "c")]
      (.error "no route to host") "m" =
      .ok ["Error sending telegram message: " ++ "no route to host"] ∧
    sendTelegramMessage [("TELEGRAM_BOT_TOKEN", "t"), ("TELEGRAM_CHAT_ID", "c")]
      (.ok ⟨500, .ok "x"⟩) "m" = .ok [] :=
  ⟨by decide, by decide,
   (c8_fire_and_forget [("TELEGRAM_BOT_TOKEN", "t"), ("TELEGRAM_CHAT_ID", "c")]
      (.error "no route to host") "m" (by decide) (by decide)).2.1
      "no route to host" rfl,
   (c8_fire_and_forget [("TELEGRAM_BOT_TOKEN", "t"), ("TELEGRAM_CHAT_ID", "c")]
      (.ok ⟨500, .ok "x"⟩) "m" (by decide) (by decide)).2.2 ⟨500, .ok "x"⟩ rfl⟩

/-- C1 (counterexample): with the apex listing for `ex.com` returning zero
records, reconciliation does report `A record for ex.com not found`, but its
trace contains a listing call for the wildcard name `*.ex.com` — the wildcard
lookup is attempted, contrary to the claim. -/
theorem c1_counterexample :
    apiMissingApex.listDNSRecords "z1" "A" "ex.com" = .ok [] ∧
    (updateDomain apiMissingApex "2.2.2.2" "ex.com").1 =
      .error "A record for ex.com not found" ∧
    (updateDomain apiMissingApex "2.2.2.2" "ex.com").2.countP
      (Event.isListFor "*.ex.com") = 1 :=
  ⟨rfl, rfl, by decide⟩

/-- C1 (amended): for every domain whose apex listing returns zero records,
reconciliation fails with a message containing the apex name and issues no
record update at all — in particular none for the wildcard — though the
wildcard record listing is still issued before the missing apex record is
detected. -/
theorem c1_missing_apex (api : CFApi) (ip d z : String)
    (hz : api.zoneIDByName d = .ok z)
    (hroot : api.listDNSRecords z "A" d = .ok []) :
    (∃ m, (updateDomain api ip d).1 = .error m ∧ d.data <:+: m.data) ∧
    (updateDomain api ip d).2.countP Event.isUpdateCall = 0 ∧
    (updateDomain api ip d).2.countP (Event.isUpdateFor ("*." ++ d)) = 0 := by
  cases hw : api.listDNSRecords z "A" ("*." ++ d) with
  | error e =>
    refine ⟨⟨"error listing wildcard record for " ++ d ++ ": " ++ e, ?_, ?_⟩, ?_, ?_⟩
    · simp [updateDomain, hz, hroot, hw]
    · exact mid_infix_append4 "error listing wildcard record for " d ": " e
    · simp [updateDomain, hz, hroot, hw, Event.isUpdateCall, List.countP_cons]
    · simp [updateDomain, hz, hroot, hw, Event.isUpdateFor, List.countP_cons]
  | ok l =>
    refine ⟨⟨"A record for " ++ d ++ " not found", ?_, ?_⟩, ?_, ?_⟩
    · simp [updateDomain, hz, hroot, hw]
    · exact mid_infix_append "A record for " d " not found"
    · simp [updateDomain, hz, hroot, hw, Event.isUpdateCall, List.countP_cons]
    · simp [updateDomain, hz, hroot, hw, Event.isUpdateFor, List.countP_cons]

/-- C1 (witness): the amended theorem applied to the provider with a missing
apex record. -/
theorem c1_missing_apex_witness :
    apiMissingApex.zoneIDByName "ex.com" = .ok "z1" ∧
    apiMissingApex.listDNSRecords "z1" "A" "ex.com" = .ok [] ∧
    ((∃ m, (updateDomain apiMissingApex "2.2.2.2" "ex.com").1 = .error m ∧
        ("ex.com" : String).data <:+: m.data) ∧
      (updateDomain apiMissingApex "2.2.2.2" "ex.com").2.countP
        Event.isUpdateCall = 0 ∧
      (updateDomain apiMissingApex "2.2.2.2" "ex.com").2.countP
        (Event.isUpdateFor ("*." ++ "ex.com")) = 0) :=
  ⟨rfl, rfl, c1_missing_apex apiMissingApex "2.2.2.2" "ex.com" "z1" rfl rfl⟩

/-- C7: when the apex record is stale and its update call fails,
reconciliation returns immediately with the wrapped update error, the trace
ends at the failed apex update call, and no update for the wildcard name is
ever attempted in that run. -/
theorem c7_root_update_aborts (api : CFApi) (ip d z e : String)
    (r w : DNSRecord) (rs ws : List DNSRecord)
    (hz : api.zoneIDByName d = .ok z)
    (hroot : api.listDNSRecords z "A" d = .ok (r :: rs))
    (hwild : api.listDNSRecords z "A" ("*." ++ d) = .ok (w :: ws))
    (hne : r.content ≠ ip)
    (hupd : api.updateDNSRecord z ⟨r.id, "A", d, ip, r.ttl, r.proxied⟩ = .error e) :
    updateDomain api ip d =
      (.error ("failed updating " ++ d ++ ": " ++ e),
        [.listCall z "A" d, .listCall z "A" ("*." ++ d),
         .updateCall z ⟨r.id, "A", d, ip, r.ttl, r.proxied⟩]) ∧
    (updateDomain api ip d).2.countP (Event.isUpdateFor ("*." ++ d)) = 0 := by
  have hwne : ¬((d : String) = "*." ++ d) := fun h => wildcard_ne d h.symm
  have hkey : updateDomain api ip d =
      (.error ("failed updating " ++ d ++ ": " ++ e),
        [.listCall z "A" d, .listCall z "A" ("*." ++ d),
         .updateCall z ⟨r.id, "A", d, ip, r.ttl, r.proxied⟩]) := by
    simp [updateDomain, hz, hroot, hwild, hne, hupd]
  refine ⟨hkey, ?_⟩
  rw [hkey]
  simp [Event.isUpdateFor, List.countP_cons, hwne]

/-- C7 (witness): the theorem applied to the provider whose apex update fails
while the wildcard record is also stale. -/
theorem c7_root_update_aborts_witness :
    apiRootUpdateFails.zoneIDByName "ex.com" = .ok "z1" ∧
    apiRootUpdateFails.listDNSRecords "z1" "A" "ex.com" =
      .ok [⟨"r1", "A", "ex.com", "1.1.1.1", 300, some true⟩] ∧
    apiRootUpdateFails.listDNSRecords "z1" "A" ("*." ++ "ex.com") =
      .ok [⟨"r2", "A", "*.ex.com", "3.3.3.3", 120, some false⟩] ∧
    ((⟨"r1", "A", "ex.com", "1.1.1.1", 300, some true⟩ : DNSRecord).content ≠
      "2.2.2.2") ∧
    ((⟨"r2", "A", "*.ex.com", "3.3.3.3", 120, some false⟩ : DNSRecord).content ≠
      "2.2.2.2") ∧
    apiRootUpdateFails.updateDNSRecord "z1"
      ⟨"r1", "A", "ex.com", "2.2.2.2", 300, some true⟩ = .error "boom" ∧
    (updateDomain apiRootUpdateFails "2.2.2.2" "ex.com" =
      (.error ("failed updating " ++ "ex.com" ++ ": " ++ "boom"),
        [.listCall "z1" "A" "ex.com", .listCall "z1" "A" ("*." ++ "ex.com"),
         .updateCall "z1" ⟨"r1", "A", "ex.com", "2.2.2.2", 300, some true⟩]) ∧
      (updateDomain apiRootUpdateFails "2.2.2.2" "ex.com").2.countP
        (Event.isUpdateFor ("*." ++ "ex.com")) = 0) :=
  ⟨rfl, rfl, rfl, by decide, by decide, rfl,
   c7_root_update_aborts apiRootUpdateFails "2.2.2.2" "ex.com" "z1" "boom"
     ⟨"r1", "A", "ex.com", "1.1.1.1", 300, some true⟩
     ⟨"r2", "A", "*.ex.com", "3.3.3.3", 120, some false⟩ [] []
     rfl rfl rfl (by decide) rfl⟩

theorem notify_msg_ne (d ip : String) :
    "IP for " ++ ("*." ++ d) ++ " updated to " ++ ip ≠
      "IP for " ++ d ++ " updated to " ++ ip := by
  intro h
  have hlen := congrArg String.length h
  simp only [String.length_append] at hlen
  have h2 : "*.".length = 2 := rfl
  omega

/-- C2 (counterexample): at a domain whose apex record is stale and whose
apex update succeeds — the claim's premise — but whose wildcard record is also
stale, two notifications containing the apex name and the new IP are sent (the
wildcard notification contains the apex name as a substring of `*.ex.com`),
not exactly one. -/
theorem c2_counterexample :
    apiBothStale.listDNSRecords "z1" "A" "ex.com" =
      .ok [⟨"r1", "A", "ex.com", "1.1.1.1", 300, some true⟩] ∧
    ("1.1.1.1" : String) ≠ "2.2.2.2" ∧
    apiBothStale.updateDNSRecord "z1"
      ⟨"r1", "A", "ex.com", "2.2.2.2", 300, some true⟩ = .ok () ∧
    (updateDomain apiBothStale "2.2.2.2" "ex.com").1 = .ok () ∧
    (updateDomain apiBothStale "2.2.2.2" "ex.com").2.countP
      (Event.notifyMentions "ex.com" "2.2.2.2") = 2 :=
  ⟨rfl, by decide, rfl, rfl, by decide⟩

/-- C2 (amended): for every domain whose apex record's Content differs from
the current IP and whose apex update call succeeds, reconciliation issues
exactly one update call whose Name is the apex, and that call carries the
existing record's ID, Type `A`, Name, TTL and Proxied flag with only Content
replaced by the current IP; exactly one notification with the apex update
message `IP for <apex> updated to <ip>` is sent; and when the wildcard record
is already current that update and that notification are the only ones in the
run, which succeeds. -/
theorem c2_apex_update (api : CFApi) (ip d z : String) (r w : DNSRecord)
    (rs ws : List DNSRecord)
    (hz : api.zoneIDByName d = .ok z)
    (hroot : api.listDNSRecords z "A" d = .ok (r :: rs))
    (hwild : api.listDNSRecords z "A" ("*." ++ d) = .ok (w :: ws))
    (hne : r.content ≠ ip)
    (hupd : api.updateDNSRecord z ⟨r.id, "A", d, ip, r.ttl, r.proxied⟩ = .ok ()) :
    (updateDomain api ip d).2.countP (Event.isUpdateFor d) = 1 ∧
    (updateDomain api ip d).2.count
      (.updateCall z ⟨r.id, "A", d, ip, r.ttl, r.proxied⟩) = 1 ∧
    (updateDomain api ip d).2.count
      (.notify ("IP for " ++ d ++ " updated to " ++ ip)) = 1 ∧
    (w.content = ip →
      updateDomain api ip d =
        (.ok (), [.listCall z "A" d, .listCall z "A" ("*." ++ d),
          .updateCall z ⟨r.id, "A", d, ip, r.ttl, r.proxied⟩,
          .notify ("IP for " ++ d ++ " updated to " ++ ip)])) := by
  have hwne : ¬(("*." ++ d : String) = d) := wildcard_ne d
  have hmsg := notify_msg_ne d ip
  by_cases hwc : w.content = ip
  · have hkey : updateDomain api ip d =
        (.ok (), [.listCall z "A" d, .listCall z "A" ("*." ++ d),
          .updateCall z ⟨r.id, "A", d, ip, r.ttl, r.proxied⟩,
          .notify ("IP for " ++ d ++ " updated to " ++ ip)]) := by
      simp [updateDomain, hz, hroot, hwild, hne, hupd, hwc]
    refine ⟨?_, ?_, ?_, fun _ => hkey⟩ <;>
      simp [hkey, Event.isUpdateFor, List.countP_cons, List.count_cons]
  · cases hwu : api.updateDNSRecord z ⟨w.id, "A", "*." ++ d, ip, w.ttl, w.proxied⟩ with
    | error e =>
      have hkey : updateDomain api ip d =
          (.error ("failed updating " ++ ("*." ++ d) ++ ": " ++ e),
            [.listCall z "A" d, .listCall z "A" ("*." ++ d),
             .updateCall z ⟨r.id, "A", d, ip, r.ttl, r.proxied⟩,
             .notify ("IP for " ++ d ++ " updated to " ++ ip),
             .updateCall z ⟨w.id, "A", "*." ++ d, ip, w.ttl, w.proxied⟩]) := by
        simp [updateDomain, hz, hroot, hwild, hne, hupd, hwc, hwu]
      refine ⟨?_, ?_, ?_, fun h => absurd h hwc⟩ <;>
        simp [hkey, Event.isUpdateFor, List.countP_cons, List.count_cons, hwne, hmsg]
    | ok u =>
      have hkey : updateDomain api ip d =
          (.ok (), [.listCall z "A" d, .listCall z "A" ("*." ++ d),
             .updateCall z ⟨r.id, "A", d, ip, r.ttl, r.proxied⟩,
             .notify ("IP for " ++ d ++ " updated to " ++ ip),
             .updateCall z ⟨w.id, "A", "*." ++ d, ip, w.ttl, w.proxied⟩,
             .notify ("IP for " ++ ("*." ++ d) ++ " updated to " ++ ip)]) := by
        simp [updateDomain, hz, hroot, hwild, hne, hupd, hwc, hwu]
      refine ⟨?_, ?_, ?_, fun h => absurd h hwc⟩ <;>
        simp [hkey, Event.isUpdateFor, List.countP_cons, List.count_cons, hwne, hmsg]

/-- C2 (witness): the amended theorem applied to the provider with both
records stale; the claim's counterexample provider doubles as a witness that
the amended premise is satisfiable. -/
theorem c2_apex_update_witness :
    apiBothStale.zoneIDByName "ex.com" = .ok "z1" ∧
    apiBothStale.listDNSRecords "z1" "A" "ex.com" =
      .ok [⟨"r1", "A", "ex.com", "1.1.1.1", 300, some true⟩] ∧
    apiBothStale.listDNSRecords "z1" "A" ("*." ++ "ex.com") =
      .ok [⟨"r2", "A", "*.ex.com", "1.1.1.1", 120, some false⟩] ∧
    ((⟨"r1", "A", "ex.com", "1.1.1.1", 300, some true⟩ : DNSRecord).content ≠
      "2.2.2.2") ∧
    ((updateDomain apiBothStale "2.2.2.2" "ex.com").2.countP
        (Event.isUpdateFor "ex.com") = 1 ∧
      (updateDomain apiBothStale "2.2.2.2" "ex.com").2.count
        (.updateCall "z1" ⟨"r1", "A", "ex.com", "2.2.2.2", 300, some true⟩) = 1 ∧
      (updateDomain apiBothStale "2.2.2.2" "ex.com").2.count
        (.notify ("IP for " ++ "ex.com" ++ " updated to " ++ "2.2.2.2")) = 1 ∧
      ((⟨"r2", "A", "*.ex.com", "1.1.1.1", 120, some false⟩ : DNSRecord).content =
          "2.2.2.2" →
        updateDomain apiBothStale "2.2.2.2" "ex.com" =
          (.ok (), [.listCall "z1" "A" "ex.com",
            .listCall "z1" "A" ("*." ++ "ex.com"),
            .updateCall "z1" ⟨"r1", "A", "ex.com", "2.2.2.2", 300, some true⟩,
            .notify ("IP for " ++ "ex.com" ++ " updated to " ++ "2.2.2.2")]))) :=
  ⟨rfl, rfl, rfl, by decide,
   c2_apex_update apiBothStale "2.2.2.2" "ex.com" "z1"
     ⟨"r1", "A", "ex.com", "1.1.1.1", 300, some true⟩
     ⟨"r2", "A", "*.ex.com", "1.1.1.1", 120, some false⟩ [] []
     rfl rfl rfl (by decide) rfl⟩

/-- C6: for every provider state whose apex and wildcard records both already
hold the current IP, reconciliation issues zero update calls and zero
notifications and reports success, and — the trace leaving the provider state
unchanged — a second run with the same IP again issues zero update calls. -/
theorem c6_noop_idempotent (w : World) (ip d z : String) (r wr : DNSRecord)
    (rs ws : List DNSRecord)
    (hz : (World.api w).zoneIDByName d = .ok z)
    (hroot : (World.api w).listDNSRecords z "A" d = .ok (r :: rs))
    (hwild : (World.api w).listDNSRecords z "A" ("*." ++ d) = .ok (wr :: ws))
    (h1 : r.content = ip) (h2 : wr.content = ip) :
    updateDomain (World.api w) ip d =
      (.ok (), [.listCall z "A" d, .listCall z "A" ("*." ++ d)]) ∧
    (updateDomain (World.api w) ip d).2.countP Event.isUpdateCall = 0 ∧
    (updateDomain (World.api w) ip d).2.countP Event.isNotify = 0 ∧
    (updateDomain
      (World.api (w.applyEvents (updateDomain (World.api w) ip d).2)) ip d).2.countP
      Event.isUpdateCall = 0 := by
  have hkey : updateDomain (World.api w) ip d =
      (.ok (), [.listCall z "A" d, .listCall z "A" ("*." ++ d)]) := by
    simp [updateDomain, hz, hroot, hwild, h1, h2]
  have happly : w.applyEvents (updateDomain (World.api w) ip d).2 = w := by
    rw [hkey]
    rfl
  refine ⟨hkey, ?_, ?_, ?_⟩
  · simp [hkey, Event.isUpdateCall, List.countP_cons]
  · simp [hkey, Event.isNotify, List.countP_cons]
  · rw [happly]
    simp [hkey, Event.isUpdateCall, List.countP_cons]

/-- C6 (witness): the theorem applied to the concrete provider state whose
two records already hold `9.9.9.9`. -/
theorem c6_noop_idempotent_witness :
    (World.api wBoth).zoneIDByName "ex.com" = .ok "z1" ∧
    (World.api wBoth).listDNSRecords "z1" "A" "ex.com" =
      .ok [⟨"r1", "A", "ex.com", "9.9.9.9", 300, some true⟩] ∧
    (World.api wBoth).listDNSRecords "z1" "A" ("*." ++ "ex.com") =
      .ok [⟨"r2", "A", "*.ex.com", "9.9.9.9", 120, some false⟩] ∧
    (updateDomain (World.api wBoth) "9.9.9.9" "ex.com" =
      (.ok (), [.listCall "z1" "A" "ex.com", .listCall "z1" "A" ("*." ++ "ex.com")]) ∧
      (updateDomain (World.api wBoth) "9.9.9.9" "ex.com").2.countP
        Event.isUpdateCall = 0 ∧
      (updateDomain (World.api wBoth) "9.9.9.9" "ex.com").2.countP
        Event.isNotify = 0 ∧
      (updateDomain
        (World.api (wBoth.applyEvents
          (updateDomain (World.api wBoth) "9.9.9.9" "ex.com").2))
        "9.9.9.9" "ex.com").2.countP Event.isUpdateCall = 0) :=
  ⟨rfl, rfl, rfl,
   c6_noop_idempotent wBoth "9.9.9.9" "ex.com" "z1"
     ⟨"r1", "A", "ex.com", "9.9.9.9", 300, some true⟩
     ⟨"r2", "A", "*.ex.com", "9.9.9.9", 120, some false⟩ [] []
     rfl rfl rfl rfl rfl⟩

theorem runDomains_spec (api : CFApi) (ip : String) (ds : List String) :
    runDomains api ip ds =
      ((ds.any fun d => isErr (updateDomain api ip d).1),
       (ds.map (domainSegment api ip)).flatten) := by
  induction ds with
  | nil => rfl
  | cons d ds ih =>
    simp only [runDomains, ih, List.any_cons, List.map_cons, List.flatten_cons]
    rcases hu : updateDomain api ip d with ⟨res, es⟩
    cases res with
    | ok u => simp [domainSegment, hu, isErr]
    | error e => simp [domainSegment, hu, isErr]

/-- C3: the driver reconciles each domain of the list once, in order — its
event trace is the in-order concatenation of the per-domain segments, where a
failing domain's segment ends with the error log line and the one failure
notification `Error updating <domain>: <error>`; the failure flag is set iff
some domain failed; and the process exit status is non-zero iff at least one
domain failed, zero otherwise. -/
theorem c3_driver (api : CFApi) (ip : String) (ds : List String) :
    (runDomains api ip ds).2 = (ds.map (domainSegment api ip)).flatten ∧
    ((runDomains api ip ds).1 = ds.any fun d => isErr (updateDomain api ip d).1) ∧
    (mainExitCode api ip ds ≠ 0 ↔ ∃ d ∈ ds, isErr (updateDomain api ip d).1 = true) := by
  refine ⟨by rw [runDomains_spec], by rw [runDomains_spec], ?_⟩
  simp only [mainExitCode, runDomains_spec]
  cases h : ds.any fun d => isErr (updateDomain api ip d).1 with
  | false =>
    rw [List.any_eq_false] at h
    simp only [if_neg Bool.false_ne_true]
    constructor
    · intro hc
      exact absurd rfl hc
    · rintro ⟨d, hd, hp⟩
      exact absurd hp (by simpa using h d hd)
  | true =>
    rw [List.any_eq_true] at h
    simp only [if_pos rfl]
    constructor
    · intro _
      exact h
    · intro _
      exact one_ne_zero

end DDNS
